import Mathlib

/-!
Verification of the Delta-Drills adaptive practice scheduler.

This file gives a shallow embedding, in Lean 4, of the algorithmic parts of
the Delta-Drills repository (practice.js, supabase-practice.js and the stats
dashboard script) and proves properties of that embedding.

Modelling conventions:
* JavaScript numbers are modelled by `JSNum` (finite rationals plus the
  non-finite values NaN, Infinity and -Infinity) where finiteness checks
  matter, and directly by `ℚ` for arithmetic that only ever sees finite
  values; the real-valued difficulty-multiplier formula is modelled over `ℝ`.
* Asynchronous collaborators (the Supabase client, the Pyodide engine, the
  AI judge, `fetch`) are modelled by explicit inputs: the value the
  collaborator returned, with `Option` capturing null results and rejected
  or thrown calls that the source catches.
* JavaScript truthiness on strings (null and the empty string are falsy) is
  translated explicitly at each use site.
* Thrown exceptions that escape a function are modelled with `Except`;
  functions that cannot throw are total Lean functions.
-/

namespace DeltaDrills

/-- Model of a JavaScript number: either a finite value (modelled as a
rational) or one of the non-finite values NaN, Infinity, -Infinity. -/
inductive JSNum where
  | nan
  | posInf
  | negInf
  | finite (q : ℚ)
deriving DecidableEq

/-- Model of JavaScript `Number.isFinite`. -/
def JSNum.isFinite : JSNum → Bool
  | .finite _ => true
  | _ => false

/-- Embedding of `clampDifficulty` (practice.js):
`if (!Number.isFinite(value)) return 0; return Math.max(0, Math.min(100, value));` -/
def clampDifficulty (value : JSNum) : ℚ :=
  match value with
  | .finite x => max 0 (min 100 x)
  | _ => 0

/-- Model of a JSON value as produced by `JSON.parse`, with numbers carried
as `JSNum` so that `Number.isFinite` checks are meaningful. -/
inductive JsonVal where
  | jnull
  | jbool (b : Bool)
  | jnum (n : JSNum)
  | jstr (s : String)
  | jarr (xs : List JsonVal)
  | jobj (fields : List (String × JsonVal))

/-- JavaScript optional property access `v?.[key]`: an object yields the
property (or undefined when absent); null, undefined and every non-object
value yield undefined.  `Option.none` stands for both null and undefined at
the point where the chain is consumed. -/
def jsGet (v : JsonVal) (key : String) : Option JsonVal :=
  match v with
  | .jobj fields => fields.lookup key
  | _ => none

/-- The lookup chain `state?.subtopic_states?.[subtopic]?.[field]` used by
both adaptive-state getters in practice.js. -/
def adaptiveChain (state : JsonVal) (subtopic field : String) : Option JsonVal :=
  ((jsGet state "subtopic_states").bind (fun ss => jsGet ss subtopic)).bind
    (fun subState => jsGet subState field)

/-- Common body of `getTargetDifficultyFromAdaptiveState` and
`getEwmaFromAdaptiveState` (practice.js); the two functions are identical
except for the field they read.  `parse` models `JSON.parse`, with `none`
for a parse error (the source catches it and returns null); the guard
`!adaptiveStateJson || !subtopic` makes null and the empty string falsy. -/
def readFiniteField (parse : String → Option JsonVal)
    (adaptiveStateJson : Option String) (subtopic : String)
    (field : String) : Option ℚ :=
  match adaptiveStateJson with
  | none => none
  | some s =>
    if s = "" then none
    else if subtopic = "" then none
    else
      match parse s with
      | none => none
      | some state =>
        match adaptiveChain state subtopic field with
        | some (.jnum (.finite q)) => some q
        | _ => none

/-- Embedding of `getTargetDifficultyFromAdaptiveState` (practice.js). -/
def getTargetDifficultyFromAdaptiveState (parse : String → Option JsonVal)
    (adaptiveStateJson : Option String) (subtopic : String) : Option ℚ :=
  readFiniteField parse adaptiveStateJson subtopic "target_difficulty"

/-- Embedding of `getEwmaFromAdaptiveState` (practice.js). -/
def getEwmaFromAdaptiveState (parse : String → Option JsonVal)
    (adaptiveStateJson : Option String) (subtopic : String) : Option ℚ :=
  readFiniteField parse adaptiveStateJson subtopic "p"

/-- Result shape of a supabase-js query: `{ data, error }`.  supabase-js
reports failures through the `error` field rather than by rejecting the
promise, so the adapter functions are total. -/
structure SbResult (α : Type) where
  data : Option α
  error : Option String

/-- A row of the `practice_user_state` table as selected by the adapter:
just its `state` column, which may be null. -/
structure PracticeRow (α : Type) where
  state : Option α

/-- Embedding of `loadPracticeStateFromSupabase` (supabase-practice.js).
`clientAvailable` models `getSupabaseClient()` returning a client rather
than null; `res` is the result of the `practice_user_state` query for the
given email.  `data?.state || null` collapses a missing row, a null state
and an error all to null. -/
def loadPracticeStateFromSupabase {α : Type} (clientAvailable : Bool)
    (email : String) (res : SbResult (PracticeRow α)) : Option α :=
  let _ := email
  if clientAvailable = false then none
  else if res.error.isSome then none
  else
    match res.data with
    | some row => row.state
    | none => none

/-- Embedding of `savePracticeStateToSupabase` (supabase-practice.js).
`upsertError` is the `error` field of the upsert's result. -/
def savePracticeStateToSupabase {α : Type} (clientAvailable : Bool)
    (email : String) (state : α) (upsertError : Option String) : Bool :=
  let _ := email
  let _ := state
  if clientAvailable = false then false
  else if upsertError.isSome then false
  else true

/-- The three practice modes of practice.js. -/
inductive PracticeMode where
  | backend
  | supabase
  | localMode
deriving DecidableEq

/-- The email computation shared by `loadAdaptiveState` and
`saveAdaptiveState` (practice.js):
`(typeof authEmail === "string" && authEmail.trim()) ? authEmail.trim() : "guest"`. -/
def emailOf (authEmail : Option String) : String :=
  match authEmail with
  | some s => if s.trim = "" then "guest" else s.trim
  | none => "guest"

/-- Embedding of `loadAdaptiveState` (practice.js), returning the value of
the `adaptiveStateJson` global after the call.  The collaborators appear as
inputs: `clientAvailable`/`res` feed `loadPracticeStateFromSupabase`,
`stringify` models `JSON.stringify`, `localStorage` models
`localStorage.getItem`, `pyodideAvailable` models `initPyodide()` returning
an instance, `practiceEngineLoaded` is the engine-loaded flag, and
`engineInitState` models `engine_api.init_state`.  `if (saved)` makes an
empty cached string falsy. -/
def loadAdaptiveState {α : Type} (mode : PracticeMode)
    (clientAvailable : Bool) (res : SbResult (PracticeRow α))
    (stringify : α → String) (localStorage : String → Option String)
    (pyodideAvailable practiceEngineLoaded : Bool)
    (engineInitState : String → String) (authEmail : Option String) :
    Option String :=
  let email := emailOf authEmail
  let sbState : Option α :=
    if mode = .supabase then loadPracticeStateFromSupabase clientAvailable email res
    else none
  match sbState with
  | some st => some (stringify st)
  | none =>
    let localKey := "adaptive_state_" ++ email
    let enginePath : Option String :=
      if pyodideAvailable ∧ practiceEngineLoaded then some (engineInitState email)
      else none
    match localStorage localKey with
    | some saved => if saved = "" then enginePath else some saved
    | none => enginePath

/-- The fields of `this.currentQuestion` read by `submitAnswer`
(practice.js). -/
structure CurrentQuestionInfo where
  question_id : String
  question_text : String
  subtopic : String
  difficulty : ℚ
  expected_output : String
  solution_code : String

/-- The object returned by `submitAnswer` in supabase/local mode:
`{ correct, actual_output, expected_output }`. -/
structure SubmitResult where
  correct : Bool
  actual_output : String
  expected_output : String
deriving DecidableEq

/-- Embedding of the supabase/local path of `PracticeAPI.submitAnswer`
(practice.js), returning the call's outcome together with the value of the
`adaptiveStateJson` global after the call.  `judgeVerdict` is the verdict
string from `fetchAIJudge`, with `none` when the judge call threw or the
request failed; in that case the source throws
"AI judge unavailable. Please sign in or use backend mode." before any
engine update runs.  `engineSubmitAnswer` models
`engine_api.submit_answer`; the guard `practiceEngineLoaded &&
adaptiveStateJson` makes a null or empty state skip the update, and
`difficulty || 50` substitutes 50 for a zero (falsy) difficulty. -/
def submitAnswer (judgeVerdict : Option String) (practiceEngineLoaded : Bool)
    (adaptiveStateJson : Option String)
    (engineSubmitAnswer : String → String → String → ℚ → Bool → String)
    (q : CurrentQuestionInfo) (actualOutput : String) :
    Except String SubmitResult × Option String :=
  let expected := q.expected_output.trim
  match judgeVerdict with
  | none =>
    (.error "AI judge unavailable. Please sign in or use backend mode.",
     adaptiveStateJson)
  | some verdict =>
    let correct : Bool := verdict = "1"
    let newState : Option String :=
      match adaptiveStateJson with
      | some s =>
        if practiceEngineLoaded ∧ s ≠ "" then
          some (engineSubmitAnswer s q.question_id q.subtopic
            (if q.difficulty = 0 then 50 else q.difficulty) correct)
        else some s
      | none => none
    (.ok { correct := correct, actual_output := actualOutput,
           expected_output := expected }, newState)

/-- A question of the hardcoded fallback pool (practice.js). -/
structure PoolQuestion where
  question_id : String
  question_text : String
  subtopic : String
  difficulty : ℚ
  expected_output : String
  solution_code : String
deriving DecidableEq

/-- Embedding of `practiceQuestionPool` (practice.js), the hardcoded
fallback pool used when questions.json fails to load. -/
def practiceQuestionPool : List PoolQuestion :=
  [{ question_id := "q001",
     question_text := "Create a 5x5 matrix with values 1,2,3,4,5 on the diagonal. Use np.diag().",
     subtopic := "Array creation",
     difficulty := 50,
     expected_output := "[[1 0 0 0 0]\n [0 2 0 0 0]\n [0 0 3 0 0]\n [0 0 0 4 0]\n [0 0 0 0 5]]",
     solution_code := "Z = np.diag(1+np.arange(5)); print(Z)" },
   { question_id := "q002",
     question_text := "Create a 8x8 matrix and fill it with a checkerboard pattern of 0s and 1s.",
     subtopic := "Indexing and selection",
     difficulty := 24,
     expected_output := "[[0 1 0 1 0 1 0 1]\n [1 0 1 0 1 0 1 0]\n [0 1 0 1 0 1 0 1]\n [1 0 1 0 1 0 1 0]\n [0 1 0 1 0 1 0 1]\n [1 0 1 0 1 0 1 0]\n [0 1 0 1 0 1 0 1]\n [1 0 1 0 1 0 1 0]]",
     solution_code := "Z = np.zeros((8,8),dtype=int)\nZ[1::2,::2] = 1\nZ[::2,1::2] = 1\nprint(Z)" },
   { question_id := "q003",
     question_text := "Create a 3x3 identity matrix using np.eye().",
     subtopic := "Array creation",
     difficulty := 20,
     expected_output := "[[1. 0. 0.]\n [0. 1. 0.]\n [0. 0. 1.]]",
     solution_code := "print(np.eye(3))" },
   { question_id := "q004",
     question_text := "Find the row-wise argmax of a 5x5 random integer matrix (seed=42, range 0-9).",
     subtopic := "Vectorization and broadcasting",
     difficulty := 24,
     expected_output := "[0 4 2 0 3]",
     solution_code := "np.random.seed(42)\nZ = np.random.randint(0,10,(5,5))\nprint(Z.argmax(axis=1))" }]

/-- Default used to model indexing into the pool: the loop only ever
produces indices below the pool length, so the default is never exposed. -/
def defaultPoolQuestion : PoolQuestion :=
  { question_id := "", question_text := "", subtopic := "", difficulty := 0,
    expected_output := "", solution_code := "" }

/-- The id at a pool index. -/
def poolIdAt (n : Nat) : String :=
  (practiceQuestionPool.getD n defaultPoolQuestion).question_id

/-- Embedding of the do/while loop in the fallback-pool branch of
`PracticeAPI.getNextQuestion` (practice.js):
`do { nextIndex = (nextIndex + 1) % pool.length; attempts++;
if (attempts >= pool.length) break; } while (completed.has(pool[nextIndex].question_id))`.
The `attempts` bound makes the loop run at most `pool.length` times, which
is the termination measure. -/
def fallbackLoop (completed : List String) (nextIndex attempts : Nat) : Nat :=
  let ni := (nextIndex + 1) % practiceQuestionPool.length
  let att := attempts + 1
  if h : practiceQuestionPool.length ≤ att then ni
  else
    if completed.contains (poolIdAt ni) then fallbackLoop completed ni att
    else ni
termination_by practiceQuestionPool.length - attempts
decreasing_by
  simp only [not_le] at h
  omega

/-- Embedding of the fallback-pool branch of `PracticeAPI.getNextQuestion`
(practice.js): starting from the current `practiceQuestionIndex`, run the
exclusion loop over `completedQuestionIds` and return the pool question at
the resulting index. -/
def getNextQuestionFallback (completedQuestionIds : List String)
    (practiceQuestionIndex : Nat) : PoolQuestion :=
  practiceQuestionPool.getD (fallbackLoop completedQuestionIds practiceQuestionIndex 0)
    defaultPoolQuestion

/-- A question record of questions.json as consumed by practice.js. -/
structure BankQuestion where
  id : Nat
  subtopic : String
  question_text : String
  difficulty_score : ℚ
  expected_output : String
  answer_code : String
deriving DecidableEq

/-- Embedding of `curatedExcludedIds` (practice.js), the static curated
exclusion set. -/
def curatedExcludedIds : List Nat :=
  [9, 20, 21, 33, 39, 44, 45, 57, 88, 161, 188, 203, 221, 222, 223, 226]

/-- Embedding of `loadQuestionsBank` (practice.js) for a cold cache:
`fetched` is the parsed body of questions.json, `none` when the fetch or
parse failed (in which case the bank is set to null and the caller falls
back to the hardcoded pool).  On success the bank is filtered through
`curatedExcludedIds` before anything else can read it. -/
def loadQuestionsBank (fetched : Option (List BankQuestion)) :
    Option (List BankQuestion) :=
  match fetched with
  | none => none
  | some qs => some (qs.filter (fun q => !(curatedExcludedIds.contains q.id)))

/-- Embedding of `calcDiffMult` (stats dashboard script), the difficulty
multiplier mirroring the backend formula:
`p <= 0.85 ? 0.5 + 0.5 * Math.pow(p / 0.85, 1.8)
: Math.min(2.5, 1 + Math.pow((p - 0.85) / 0.15, 2.5))`,
modelled over the reals with `Real.rpow` for `Math.pow`.  The function is a
plain function of `p`: it reads and writes no state, which is how the
source's purity requirement is realised in this embedding. -/
noncomputable def calcDiffMult (p : ℝ) : ℝ :=
  if p ≤ 0.85 then 0.5 + 0.5 * (p / 0.85) ^ (1.8 : ℝ)
  else min 2.5 (1 + ((p - 0.85) / 0.15) ^ (2.5 : ℝ))

/-- A raw item of the `/api/practice/subtopics` payload as read by
`buildAreas` (stats dashboard script).  `topic` is optional in the source
(`item.topic || item.subtopic.split(":")[0].trim()`), and `gradient` is the
server-computed priority used only for the display sort. -/
structure StatsItem where
  topic : Option String
  subtopic : String
  weight : ℚ
  learning_rate : ℚ
  gradient : ℚ
  baseline : ℚ
  questions_answered : ℚ
  current_difficulty : ℚ
  p : ℚ
deriving DecidableEq

/-- A stats item together with the display label `buildAreas` attaches when
grouping (`{ ...item, label }`). -/
structure LabeledItem extends StatsItem where
  label : String
deriving DecidableEq

/-- The custom weights persisted under `delta_drills_weights`
(localStorage): raw percentage values per topic and per subtopic. -/
structure CustomWeights where
  topics : List (String × ℚ)
  subtopics : List (String × ℚ)

/-- A subarea object produced by `buildAreas`.  The source also stores
`difficultyMultiplier: calcDiffMult(st.p)`; that real-valued field is kept
out of the record so the rest of the construction stays executable, and is
covered by the `calcDiffMult` theorems below. -/
structure Subarea where
  id : String
  label : String
  topicName : String
  weightShare : ℚ
  displayPct : ℚ
  currentScore : ℚ
  learningRate : ℚ
  delta : ℚ
  solved : ℚ
  currentDifficulty : ℚ
  p : ℚ
  targetDifficulty : ℚ
deriving DecidableEq

/-- An area object produced by `buildAreas`.  As with `Subarea`, the
source's `difficultyMultiplier: calcDiffMult(avgP)` field is covered by the
`calcDiffMult` theorems rather than stored. -/
structure Area where
  id : String
  rank : Nat
  area : String
  weight : ℚ
  displayPct : ℚ
  currentScore : ℚ
  learningRate : ℚ
  solved : ℚ
  subareas : List Subarea
  p : ℚ
  targetDifficulty : ℚ
deriving DecidableEq

/-- JavaScript `Math.round`: round half toward positive infinity. -/
def jsRound (x : ℚ) : ℚ :=
  ((⌊x + 1 / 2⌋ : ℤ) : ℚ)

/-- The topic name of an item:
`item.topic || item.subtopic.split(":")[0].trim()` (an absent or empty
`topic` falls back to the part of the subtopic before the first colon). -/
def topicNameOf (item : StatsItem) : String :=
  match item.topic with
  | some t => if t = "" then ((item.subtopic.splitOn ":").headD "").trim else t
  | none => ((item.subtopic.splitOn ":").headD "").trim

/-- The display label of an item:
`colonIdx >= 0 ? item.subtopic.slice(colonIdx + 2) : item.subtopic`
(everything after the first ": "). -/
def labelOf (s : String) : String :=
  match s.toList.findIdx? (· = ':') with
  | some i => String.mk (s.toList.drop (i + 2))
  | none => s

/-- One step of the insertion-ordered grouping done with a `Map` in
`buildAreas`: append the item to its topic's bucket, creating the bucket at
the end on first sight of the topic. -/
def insertGrouped (m : List (String × List LabeledItem)) (k : String)
    (v : LabeledItem) : List (String × List LabeledItem) :=
  match m with
  | [] => [(k, [v])]
  | (k', vs) :: rest =>
    if k' = k then (k', vs ++ [v]) :: rest
    else (k', vs) :: insertGrouped rest k v

/-- The `topicMap` grouping of `buildAreas`: group items by topic name,
preserving first-seen topic order and per-topic item order, and attach each
item's label. -/
def groupByTopic (items : List StatsItem) : List (String × List LabeledItem) :=
  items.foldl
    (fun m item =>
      insertGrouped m (topicNameOf item) { toStatsItem := item, label := labelOf item.subtopic })
    []

/-- Replace each maximal run of whitespace by a single dash, as
`replace(/\s+/g, "-")` does. -/
def collapseWhitespace : List Char → Bool → List Char
  | [], _ => []
  | c :: rest, prevWs =>
    if c.isWhitespace then
      if prevWs then collapseWhitespace rest true
      else '-' :: collapseWhitespace rest true
    else c :: collapseWhitespace rest false

/-- The area id: `topicName.toLowerCase().replace(/\s+/g, "-")`. -/
def slugify (s : String) : String :=
  String.mk (collapseWhitespace s.toLower.toList false)

/-- The per-subtopic computation inside `buildAreas`: share fraction and
display percentage from the custom subtopic weight (or the uniform `1/n`
default), effective weight as the product of the topic fraction and the
share fraction, and gradient (`delta`) as `effectiveWeight * learning_rate`. -/
def mkSubarea (w : CustomWeights) (topicName : String)
    (topicWeightFraction : ℚ) (n : Nat) (st : LabeledItem) : Subarea :=
  let customSubPct := w.subtopics.lookup st.subtopic
  let subShareFraction : ℚ :=
    match customSubPct with
    | some pct => pct / 100
    | none => 1 / (if n = 0 then 1 else (n : ℚ))
  let defaultSubSharePct : ℚ := if 0 < n then 100 / (n : ℚ) else 100
  let subDisplayPct : ℚ :=
    match customSubPct with
    | some pct => pct
    | none => jsRound defaultSubSharePct
  let effectiveWeight := topicWeightFraction * subShareFraction
  let gradient := effectiveWeight * st.learning_rate
  { id := st.subtopic
    label := st.label
    topicName := topicName
    weightShare := subShareFraction
    displayPct := subDisplayPct
    currentScore := min 100 st.baseline
    learningRate := st.learning_rate
    delta := gradient
    solved := st.questions_answered
    currentDifficulty := st.current_difficulty
    p := st.p
    targetDifficulty := st.current_difficulty }

/-- The per-topic computation inside `buildAreas`: topic fraction from the
custom topic percentage or the summed server weights, subareas sorted by
the server gradient descending (a stable sort, as `Array.prototype.sort`
is), and the topic-level averages.  The source also computes a local
`topicDelta` that is not stored on the pushed object. -/
def mkArea (w : CustomWeights) (rank : Nat) (topicName : String)
    (subtopics : List LabeledItem) : Area :=
  let n := subtopics.length
  let serverTopicWeight := (subtopics.map (·.weight)).sum
  let customTopicPct := w.topics.lookup topicName
  let topicWeightFraction : ℚ :=
    match customTopicPct with
    | some pct => pct / 100
    | none => serverTopicWeight
  let topicDisplayPct : ℚ :=
    match customTopicPct with
    | some pct => pct
    | none => jsRound (serverTopicWeight * 100)
  let sorted := subtopics.mergeSort (fun a b => b.gradient ≤ a.gradient)
  let subareas := sorted.map (mkSubarea w topicName topicWeightFraction n)
  let topicSolved := (subtopics.map (·.questions_answered)).sum
  let avgBaseline : ℚ :=
    if n = 0 then 0 else (subtopics.map (·.baseline)).sum / (n : ℚ)
  let avgLr : ℚ :=
    if n = 0 then 0 else (subtopics.map (·.learning_rate)).sum / (n : ℚ)
  let avgP : ℚ :=
    if n = 0 then 0 else (subtopics.map (·.p)).sum / (n : ℚ)
  let avgTargetDiff : ℚ :=
    if n = 0 then 0 else (subtopics.map (·.current_difficulty)).sum / (n : ℚ)
  { id := slugify topicName
    rank := rank
    area := topicName
    weight := topicWeightFraction
    displayPct := topicDisplayPct
    currentScore := min 100 avgBaseline
    learningRate := avgLr
    solved := topicSolved
    subareas := subareas
    p := avgP
    targetDifficulty := avgTargetDiff }

/-- Embedding of `buildAreas` (stats dashboard script): group items by
topic, then build one area per topic with `rank` counting from 1 in
insertion order. -/
def buildAreas (items : List StatsItem) (w : CustomWeights) : List Area :=
  (groupByTopic items).enum.map (fun e => mkArea w (e.1 + 1) e.2.1 e.2.2)

/-- JavaScript object assignment `weights[sub.id] = v` on an assoc list:
overwrite in place when the key exists, append otherwise. -/
def objSet : List (String × ℚ) → String → ℚ → List (String × ℚ)
  | [], k, v => [(k, v)]
  | (k', v') :: rest, k, v =>
    if k' = k then (k, v) :: rest
    else (k', v') :: objSet rest k v

/-- Embedding of the weights payload built by `pushWeightsToBackend` (stats
dashboard script): `weights[sub.id] = area.weight * sub.weightShare` over
every area and subarea.  The network PUT itself is plumbing; the function
returns the object it would send. -/
def pushWeightsToBackend (areas : List Area) : List (String × ℚ) :=
  areas.foldl
    (fun acc area =>
      area.subareas.foldl
        (fun acc2 sub => objSet acc2 sub.id (area.weight * sub.weightShare))
        acc)
    []

/-- The spec's worked selection example as input to the client mirror: two
topics, each with one subtopic, with server weights 0.7 and 0.3 and
learning-rate estimates 0.2 and 0.9 (the `gradient` fields carry the
server's own weight-times-rate products). -/
def exampleItems : List StatsItem :=
  [{ topic := some "Topic A", subtopic := "Topic A: sub", weight := 7/10,
     learning_rate := 2/10, gradient := 14/100, baseline := 50,
     questions_answered := 3, current_difficulty := 50, p := 1/2 },
   { topic := some "Topic B", subtopic := "Topic B: sub", weight := 3/10,
     learning_rate := 9/10, gradient := 27/100, baseline := 50,
     questions_answered := 3, current_difficulty := 50, p := 1/2 }]

/-- No custom weights: the default path of `buildAreas`. -/
def exampleWeights : CustomWeights :=
  { topics := [], subtopics := [] }

/-- A counterexample input: one topic with two subtopics, learning rate 1
on both, and custom weights of 100% for the topic and 80% for each
subtopic — raw percentages that do not sum consistently. -/
def skewedItems : List StatsItem :=
  [{ topic := some "T", subtopic := "T: a", weight := 1/2, learning_rate := 1,
     gradient := 2, baseline := 50, questions_answered := 3,
     current_difficulty := 50, p := 1/2 },
   { topic := some "T", subtopic := "T: b", weight := 1/2, learning_rate := 1,
     gradient := 1, baseline := 50, questions_answered := 3,
     current_difficulty := 50, p := 1/2 }]

/-- The custom weights of the counterexample: 100% topic weight, 80% for
each of the two subtopics. -/
def skewedWeights : CustomWeights :=
  { topics := [("T", 100)], subtopics := [("T: a", 80), ("T: b", 80)] }

/-- An all-zero area, used only as the default of `List.headD`. -/
def emptyArea : Area :=
  { id := "", rank := 0, area := "", weight := 0, displayPct := 0,
    currentScore := 0, learningRate := 0, solved := 0, subareas := [],
    p := 0, targetDifficulty := 0 }

/-- An all-zero subarea, used only as the default of `List.headD`. -/
def emptySubarea : Subarea :=
  { id := "", label := "", topicName := "", weightShare := 0, displayPct := 0,
    currentScore := 0, learningRate := 0, delta := 0, solved := 0,
    currentDifficulty := 0, p := 0, targetDifficulty := 0 }

/-- The first area built from the worked example. -/
def exampleArea : Area :=
  (buildAreas exampleItems exampleWeights).headD emptyArea

/-- The first subarea of the first area built from the worked example. -/
def exampleSubarea : Subarea :=
  exampleArea.subareas.headD emptySubarea

/-- Claim C9: for every input value, including NaN and the infinities,
`clampDifficulty` returns a value in [0, 100]: 0 for non-finite input and
`max(0, min(100, v))` for finite input. -/
theorem clampDifficulty_spec (v : JSNum) :
    0 ≤ clampDifficulty v ∧ clampDifficulty v ≤ 100 ∧
    (v.isFinite = false → clampDifficulty v = 0) ∧
    (∀ x : ℚ, v = .finite x → clampDifficulty v = max 0 (min 100 x)) := by
  rcases v with _ | _ | _ | x
  · exact ⟨le_refl 0, by norm_num [clampDifficulty], fun _ => rfl, fun x h => by cases h⟩
  · exact ⟨le_refl 0, by norm_num [clampDifficulty], fun _ => rfl, fun x h => by cases h⟩
  · exact ⟨le_refl 0, by norm_num [clampDifficulty], fun _ => rfl, fun x h => by cases h⟩
  · refine ⟨le_max_left 0 _, max_le (by norm_num) (min_le_left _ _), ?_, ?_⟩
    · intro h
      simp [JSNum.isFinite] at h
    · intro y hy
      cases hy
      rfl

/-- Witness for C9: `clampDifficulty` at NaN and at the out-of-range finite
value 150. -/
theorem clampDifficulty_spec_witness :
    clampDifficulty JSNum.nan = 0 ∧
    clampDifficulty (JSNum.finite 150) = max 0 (min 100 150) :=
  ⟨(clampDifficulty_spec JSNum.nan).2.2.1 rfl,
   (clampDifficulty_spec (JSNum.finite 150)).2.2.2 150 rfl⟩

/-- Characterization of `readFiniteField`: it yields a value exactly when
the state string is present and non-empty, the subtopic is non-empty, the
JSON parses, and the lookup chain ends at a finite number; in every other
case it yields null, and it never throws (it is a total function). -/
theorem readFiniteField_spec (parse : String → Option JsonVal)
    (aj : Option String) (subtopic field : String) (q : ℚ) :
    readFiniteField parse aj subtopic field = some q ↔
      ∃ s state, aj = some s ∧ s ≠ "" ∧ subtopic ≠ "" ∧ parse s = some state ∧
        adaptiveChain state subtopic field = some (.jnum (.finite q)) := by
  rcases aj with _ | s
  · simp [readFiniteField]
  · by_cases hs : s = ""
    · simp [readFiniteField, hs]
    · by_cases hst : subtopic = ""
      · simp [readFiniteField, hs, hst]
      · rcases hp : parse s with _ | state
        · simp [readFiniteField, hs, hst, hp]
        · rcases hc : adaptiveChain state subtopic field with _ | val
          · simp [readFiniteField, hs, hst, hp, hc]
          · rcases val with _ | b | n | t | xs | fs
            · simp [readFiniteField, hs, hst, hp, hc]
            · simp [readFiniteField, hs, hst, hp, hc]
            · rcases n with _ | _ | _ | x <;>
                simp [readFiniteField, hs, hst, hp, hc]
            · simp [readFiniteField, hs, hst, hp, hc]
            · simp [readFiniteField, hs, hst, hp, hc]
            · simp [readFiniteField, hs, hst, hp, hc]

/-- Claim C10: for every value of `adaptiveStateJson` (null, empty,
malformed JSON, or a state missing the requested subtopic) and every
subtopic, `getTargetDifficultyFromAdaptiveState` and
`getEwmaFromAdaptiveState` never throw (they are total functions of their
inputs) and return a finite number exactly when the corresponding field
exists and is a finite number, and null in every other case. -/
theorem adaptiveStateGetters_safe (parse : String → Option JsonVal)
    (aj : Option String) (subtopic : String) :
    (∀ q : ℚ, getTargetDifficultyFromAdaptiveState parse aj subtopic = some q ↔
       ∃ s state, aj = some s ∧ s ≠ "" ∧ subtopic ≠ "" ∧ parse s = some state ∧
         adaptiveChain state subtopic "target_difficulty"
           = some (.jnum (.finite q))) ∧
    (∀ q : ℚ, getEwmaFromAdaptiveState parse aj subtopic = some q ↔
       ∃ s state, aj = some s ∧ s ≠ "" ∧ subtopic ≠ "" ∧ parse s = some state ∧
         adaptiveChain state subtopic "p" = some (.jnum (.finite q))) :=
  ⟨fun q => readFiniteField_spec parse aj subtopic "target_difficulty" q,
   fun q => readFiniteField_spec parse aj subtopic "p" q⟩

/-- Witness for C10: a concrete parsed state with a finite
`target_difficulty` of 42 under subtopic "X" yields `some 42`. -/
theorem adaptiveStateGetters_safe_witness :
    getTargetDifficultyFromAdaptiveState
      (fun _ => some (JsonVal.jobj
        [("subtopic_states", JsonVal.jobj
          [("X", JsonVal.jobj
            [("target_difficulty", JsonVal.jnum (JSNum.finite 42))])])]))
      (some "statejson") "X" = some 42 := by
  exact ((adaptiveStateGetters_safe _ _ _).1 42).mpr
    ⟨"statejson", _, rfl, by decide, by decide, rfl, rfl⟩

/-- Claim C6: the state-store adapter never raises (both functions are
total): `loadPracticeStateFromSupabase` returns null when the client is
unavailable or the query reports an error, and `savePracticeStateToSupabase`
returns false on any failure, including an unavailable client. -/
theorem storeAdapter_resilient {α : Type} (client : Bool) (email : String)
    (res : SbResult (PracticeRow α)) (st : α) (upsertError : Option String) :
    (client = false → loadPracticeStateFromSupabase client email res = none) ∧
    (res.error.isSome = true → loadPracticeStateFromSupabase client email res = none) ∧
    (client = false → savePracticeStateToSupabase client email st upsertError = false) ∧
    (upsertError.isSome = true →
      savePracticeStateToSupabase client email st upsertError = false) := by
  refine ⟨fun h => ?_, fun h => ?_, fun h => ?_, fun h => ?_⟩
  · simp [loadPracticeStateFromSupabase, h]
  · unfold loadPracticeStateFromSupabase
    split_ifs <;> simp [h]
  · simp [savePracticeStateToSupabase, h]
  · unfold savePracticeStateToSupabase
    split_ifs <;> simp [h]

/-- Witness for C6: the adapter at an unavailable client and at a failed
query/upsert. -/
theorem storeAdapter_resilient_witness :
    loadPracticeStateFromSupabase (α := Unit) false "u@example.com" ⟨none, none⟩ = none ∧
    loadPracticeStateFromSupabase (α := Unit) true "u@example.com"
      ⟨some ⟨some ()⟩, some "connection failed"⟩ = none ∧
    savePracticeStateToSupabase false "u@example.com" () none = false ∧
    savePracticeStateToSupabase true "u@example.com" () (some "connection failed") = false :=
  ⟨(storeAdapter_resilient false "u@example.com" ⟨none, none⟩ () none).1 rfl,
   (storeAdapter_resilient true "u@example.com"
      ⟨some ⟨some ()⟩, some "connection failed"⟩ () none).2.1 rfl,
   (storeAdapter_resilient false "u@example.com" ⟨none, none⟩ () none).2.2.1 rfl,
   (storeAdapter_resilient true "u@example.com" ⟨none, none⟩ ()
      (some "connection failed")).2.2.2 rfl⟩

/-- Claim C4: in supabase/local mode, when the correctness judge cannot be
reached (`fetchAIJudge` throws), `submitAnswer` raises the
judge-unavailable error to the caller instead of assigning a verdict, and
the adaptive state is left exactly as it was: no engine update runs. -/
theorem submitAnswer_judgeUnavailable (practiceEngineLoaded : Bool)
    (adaptiveStateJson : Option String)
    (engineSubmitAnswer : String → String → String → ℚ → Bool → String)
    (q : CurrentQuestionInfo) (actualOutput : String) :
    submitAnswer none practiceEngineLoaded adaptiveStateJson engineSubmitAnswer
        q actualOutput
      = (.error "AI judge unavailable. Please sign in or use backend mode.",
         adaptiveStateJson) := rfl

/-- Claim C8: after every successful `loadQuestionsBank` call, the
in-memory bank contains no question whose id is in `curatedExcludedIds`. -/
theorem loadQuestionsBank_excludesCurated (fetched : Option (List BankQuestion))
    (bank : List BankQuestion) (h : loadQuestionsBank fetched = some bank) :
    ∀ q ∈ bank, curatedExcludedIds.contains q.id = false := by
  rcases fetched with _ | qs
  · simp [loadQuestionsBank] at h
  · simp only [loadQuestionsBank, Option.some.injEq] at h
    subst h
    intro q hq
    rw [List.mem_filter] at hq
    simpa using hq.2

/-- Witness for C8: fetching a bank containing excluded id 9 and kept id 10
yields a bank in which the surviving question's id is not excluded. -/
theorem loadQuestionsBank_excludesCurated_witness :
    curatedExcludedIds.contains
      ({ id := 10, subtopic := "s", question_text := "t", difficulty_score := 50,
         expected_output := "o", answer_code := "a" } : BankQuestion).id = false := by
  exact loadQuestionsBank_excludesCurated
    (some [{ id := 9, subtopic := "s", question_text := "t", difficulty_score := 50,
             expected_output := "o", answer_code := "a" },
           { id := 10, subtopic := "s", question_text := "t", difficulty_score := 50,
             expected_output := "o", answer_code := "a" }])
    [{ id := 10, subtopic := "s", question_text := "t", difficulty_score := 50,
       expected_output := "o", answer_code := "a" }]
    rfl
    { id := 10, subtopic := "s", question_text := "t", difficulty_score := 50,
      expected_output := "o", answer_code := "a" }
    (by simp)

/-- Claim C5: when the persistent store yields nothing (the mode is not
supabase, or `loadPracticeStateFromSupabase` returned null because of an
unavailable client, a query error or a missing row), `loadAdaptiveState`
does not raise (it is total) and still produces a usable state: it falls
back first to the localStorage copy under `adaptive_state_<email>`, and
failing that initializes a fresh state via the engine. -/
theorem loadAdaptiveState_storeFallback {α : Type} (mode : PracticeMode)
    (clientAvailable : Bool) (res : SbResult (PracticeRow α))
    (stringify : α → String) (localStorage : String → Option String)
    (pyodideAvailable practiceEngineLoaded : Bool)
    (engineInitState : String → String) (authEmail : Option String)
    (hstore : mode = .supabase →
      loadPracticeStateFromSupabase clientAvailable (emailOf authEmail) res = none) :
    (∀ saved, localStorage ("adaptive_state_" ++ emailOf authEmail) = some saved →
        saved ≠ "" →
        loadAdaptiveState mode clientAvailable res stringify localStorage
          pyodideAvailable practiceEngineLoaded engineInitState authEmail
          = some saved) ∧
    ((localStorage ("adaptive_state_" ++ emailOf authEmail) = none ∨
        localStorage ("adaptive_state_" ++ emailOf authEmail) = some "") →
      pyodideAvailable = true → practiceEngineLoaded = true →
      loadAdaptiveState mode clientAvailable res stringify localStorage
        pyodideAvailable practiceEngineLoaded engineInitState authEmail
        = some (engineInitState (emailOf authEmail))) := by
  have hsb :
      (if mode = .supabase then
        loadPracticeStateFromSupabase clientAvailable (emailOf authEmail) res
      else none) = none := by
    by_cases hm : mode = .supabase
    · simp [hm, hstore hm]
    · simp [hm]
  constructor
  · intro saved hsaved hne
    simp [loadAdaptiveState, hsb, hsaved, hne]
  · rintro (hls | hls) hpy heng
    · simp [loadAdaptiveState, hsb, hls, hpy, heng]
    · simp [loadAdaptiveState, hsb, hls, hpy, heng]

/-- Witness for C5: in local mode with an empty store result, the cached
localStorage copy is returned. -/
theorem loadAdaptiveState_storeFallback_witness :
    loadAdaptiveState (α := Unit) PracticeMode.localMode false ⟨none, none⟩
      (fun _ => "") (fun _ => some "cachedstate") true true
      (fun e => "fresh_" ++ e) none
      = some "cachedstate" := by
  exact (loadAdaptiveState_storeFallback PracticeMode.localMode false ⟨none, none⟩
      (fun _ => "") (fun _ => some "cachedstate") true true
      (fun e => "fresh_" ++ e) none (fun h => nomatch h)).1
    "cachedstate" rfl (by decide)

/-- On the low-accuracy branch (`p <= 0.85` with `p >= 0`), the multiplier
lies in [0.5, 1]. -/
theorem calcDiffMult_low_bounds (p : ℝ) (h0 : 0 ≤ p) (hp : p ≤ 0.85) :
    0.5 ≤ calcDiffMult p ∧ calcDiffMult p ≤ 1 := by
  have ht0 : 0 ≤ p / 0.85 := div_nonneg h0 (by norm_num)
  have ht1 : p / 0.85 ≤ 1 := by
    rw [div_le_one (by norm_num)]
    exact hp
  have hr0 : 0 ≤ (p / 0.85) ^ (1.8 : ℝ) := Real.rpow_nonneg ht0 _
  have hr1 : (p / 0.85) ^ (1.8 : ℝ) ≤ 1 := Real.rpow_le_one ht0 ht1 (by norm_num)
  simp only [calcDiffMult, if_pos hp]
  constructor <;> linarith

/-- On the mastery branch (`p > 0.85`), the multiplier lies in [1, 2.5]. -/
theorem calcDiffMult_high_bounds (p : ℝ) (hp : 0.85 < p) :
    1 ≤ calcDiffMult p ∧ calcDiffMult p ≤ 2.5 := by
  have hx0 : 0 ≤ (p - 0.85) / 0.15 := div_nonneg (by linarith) (by norm_num)
  have hr0 : 0 ≤ ((p - 0.85) / 0.15) ^ (2.5 : ℝ) := Real.rpow_nonneg hx0 _
  simp only [calcDiffMult, if_neg (not_le.mpr hp)]
  exact ⟨le_min (by norm_num) (by linarith), min_le_left _ _⟩

/-- Claim C1: for every accuracy `p` in [0, 1], the difficulty multiplier
follows the two-branch formula, equals exactly 1 at `p = 0.85`, and always
lies between 0.5 and 2.5. -/
theorem calcDiffMult_formula (p : ℝ) (h0 : 0 ≤ p) (h1 : p ≤ 1) :
    (p ≤ 0.85 → calcDiffMult p = 0.5 + 0.5 * (p / 0.85) ^ (1.8 : ℝ)) ∧
    (0.85 < p → calcDiffMult p = min 2.5 (1 + ((p - 0.85) / 0.15) ^ (2.5 : ℝ))) ∧
    calcDiffMult 0.85 = 1 ∧
    0.5 ≤ calcDiffMult p ∧ calcDiffMult p ≤ 2.5 := by
  have hval : calcDiffMult (0.85 : ℝ) = 1 := by
    have h85 : (0.85 : ℝ) / 0.85 = 1 := by norm_num
    simp only [calcDiffMult, if_pos (le_refl (0.85 : ℝ)), h85, Real.one_rpow]
    norm_num
  refine ⟨fun hp => by simp only [calcDiffMult, if_pos hp],
    fun hp => by simp only [calcDiffMult, if_neg (not_le.mpr hp)], hval, ?_, ?_⟩
  · by_cases hp : p ≤ 0.85
    · exact (calcDiffMult_low_bounds p h0 hp).1
    · have := (calcDiffMult_high_bounds p (not_le.mp hp)).1
      linarith
  · by_cases hp : p ≤ 0.85
    · have := (calcDiffMult_low_bounds p h0 hp).2
      linarith
    · exact (calcDiffMult_high_bounds p (not_le.mp hp)).2

/-- Witness for C1: the bounds instantiated at `p = 0.9`. -/
theorem calcDiffMult_formula_witness :
    (0 : ℝ) ≤ 0.9 ∧ (0.9 : ℝ) ≤ 1 ∧
    0.5 ≤ calcDiffMult 0.9 ∧ calcDiffMult 0.9 ≤ 2.5 :=
  ⟨by norm_num, by norm_num,
   (calcDiffMult_formula 0.9 (by norm_num) (by norm_num)).2.2.2.1,
   (calcDiffMult_formula 0.9 (by norm_num) (by norm_num)).2.2.2.2⟩

/-- Claim C2: the difficulty multiplier is pure — in this embedding it is a
plain function of `p` alone, with no state read or written — and monotone
non-decreasing on [0, 1]. -/
theorem calcDiffMult_monotone (p₁ p₂ : ℝ) (h0 : 0 ≤ p₁) (h12 : p₁ ≤ p₂)
    (h1 : p₂ ≤ 1) : calcDiffMult p₁ ≤ calcDiffMult p₂ := by
  by_cases h2 : p₂ ≤ 0.85
  · have hA : p₁ ≤ 0.85 := le_trans h12 h2
    have hmono : (p₁ / 0.85) ^ (1.8 : ℝ) ≤ (p₂ / 0.85) ^ (1.8 : ℝ) := by
      refine Real.rpow_le_rpow (div_nonneg h0 (by norm_num)) ?_ (by norm_num)
      gcongr
    simp only [calcDiffMult, if_pos hA, if_pos h2]
    linarith
  · push_neg at h2
    have hge1 : (1 : ℝ) ≤ calcDiffMult p₂ := (calcDiffMult_high_bounds p₂ h2).1
    by_cases hA : p₁ ≤ 0.85
    · have hle1 : calcDiffMult p₁ ≤ 1 := (calcDiffMult_low_bounds p₁ h0 hA).2
      linarith
    · push_neg at hA
      have hmono : ((p₁ - 0.85) / 0.15) ^ (2.5 : ℝ)
          ≤ ((p₂ - 0.85) / 0.15) ^ (2.5 : ℝ) := by
        refine Real.rpow_le_rpow (div_nonneg (by linarith) (by norm_num)) ?_ (by norm_num)
        gcongr
      simp only [calcDiffMult, if_neg (not_le.mpr hA), if_neg (not_le.mpr h2)]
      exact min_le_min (le_refl _) (by linarith)

/-- Witness for C2: monotonicity instantiated at the endpoints 0 and 1. -/
theorem calcDiffMult_monotone_witness :
    calcDiffMult 0 ≤ calcDiffMult 1 :=
  calcDiffMult_monotone 0 1 (le_refl 0) (by norm_num) (le_refl 1)

/-- Evaluation of the fallback-pool loop: starting at `i` with zero
attempts, it returns the first of the three following indices (mod 4) whose
question id is not completed, and index `i % 4` itself when all three are
completed (the `attempts >= pool.length` break). -/
theorem fallbackLoop_eval (completed : List String) (i : Nat) :
    fallbackLoop completed i 0 =
      (if completed.contains (poolIdAt ((i + 1) % 4)) then
        (if completed.contains (poolIdAt ((i + 2) % 4)) then
          (if completed.contains (poolIdAt ((i + 3) % 4)) then i % 4
           else (i + 3) % 4)
         else (i + 2) % 4)
       else (i + 1) % 4) := by
  have e2 : i + 1 + 1 = i + 2 := by omega
  have e3 : i + 2 + 1 = i + 3 := by omega
  have e4 : i + 3 + 1 = i + 4 := by omega
  have e5 : (i + 4) % 4 = i % 4 := by omega
  simp [fallbackLoop, show practiceQuestionPool.length = 4 from rfl,
    Nat.mod_add_mod, e2, e3, e4, e5]

/-- Claim C7: in the hardcoded fallback-pool path of `getNextQuestion`, the
returned question always comes from the pool, and whenever at least one
pool question remains uncompleted the returned question's id is not among
the completed ids; when every pool question is completed a pool question is
still returned (the exclusion never leaves zero candidates, and the loop
terminates — it is a total function by its `attempts` bound). -/
theorem getNextQuestionFallback_spec (completed : List String) (i : Nat) :
    getNextQuestionFallback completed i ∈ practiceQuestionPool ∧
    ((∃ q ∈ practiceQuestionPool, completed.contains q.question_id = false) →
      completed.contains (getNextQuestionFallback completed i).question_id
        = false) := by
  have h1 : (i + 1) % 4 = (i % 4 + 1) % 4 := by omega
  have h2 : (i + 2) % 4 = (i % 4 + 2) % 4 := by omega
  have h3 : (i + 3) % 4 = (i % 4 + 3) % 4 := by omega
  have p0 : poolIdAt 0 = "q001" := rfl
  have p1 : poolIdAt 1 = "q002" := rfl
  have p2 : poolIdAt 2 = "q003" := rfl
  have p3 : poolIdAt 3 = "q004" := rfl
  constructor
  · have hlt : fallbackLoop completed i 0 < 4 := by
      rw [fallbackLoop_eval]
      split_ifs <;> omega
    show practiceQuestionPool.getD (fallbackLoop completed i 0) defaultPoolQuestion
      ∈ practiceQuestionPool
    rw [List.getD_eq_getElem _ _ (by simpa using hlt)]
    exact List.getElem_mem _
  · intro hex
    show completed.contains (poolIdAt (fallbackLoop completed i 0)) = false
    rw [fallbackLoop_eval, h1, h2, h3]
    rcases (by omega : i % 4 = 0 ∨ i % 4 = 1 ∨ i % 4 = 2 ∨ i % 4 = 3) with
        h | h | h | h <;>
      rw [h] <;>
      norm_num <;>
      simp only [p0, p1, p2, p3] <;>
      split_ifs with c1 c2 c3 <;>
      simp_all [practiceQuestionPool]

/-- Witness for C7: with q002 and q003 completed and the index at 1, the
loop skips to q004, which is uncompleted. -/
theorem getNextQuestionFallback_spec_witness :
    (["q002", "q003"] : List String).contains
      (getNextQuestionFallback ["q002", "q003"] 1).question_id = false := by
  exact (getNextQuestionFallback_spec ["q002", "q003"] 1).2
    ⟨practiceQuestionPool.getD 0 defaultPoolQuestion, by simp [practiceQuestionPool],
     by decide⟩

/-- Counterexample to claim C3: with custom weights of 100% for topic "T"
and 80% for each of its two subtopics (learning rate 1 on both), the client
mirror produces delta 4/5 for each subtopic and pushes effective weights
4/5 + 4/5 = 8/5, which do not sum to 1; the normalized product would be
(4/5) / (8/5) * 1 = 1/2 ≠ 4/5, so the delta does not equal the normalized
product and the weights are not normalized to sum to 1 regardless of the
scale in which they were supplied. -/
theorem buildAreas_normalization_counterexample :
    (buildAreas skewedItems skewedWeights).map
        (fun a => a.subareas.map (fun s => s.delta)) = [[4/5, 4/5]] ∧
    pushWeightsToBackend (buildAreas skewedItems skewedWeights)
      = [("T: a", 4/5), ("T: b", 4/5)] ∧
    (4 : ℚ)/5 + 4/5 ≠ 1 ∧
    (4 : ℚ)/5 ≠ 4/5 / (4/5 + 4/5) * 1 := by
  refine ⟨?_, ?_, by norm_num, by norm_num⟩
  · simp [buildAreas, groupByTopic, insertGrouped, topicNameOf, labelOf,
      skewedItems, skewedWeights, mkArea, mkSubarea, List.mergeSort, List.lookup, List.enum, List.enumFrom]
    norm_num
  · simp [pushWeightsToBackend, buildAreas, groupByTopic, insertGrouped,
      topicNameOf, labelOf, skewedItems, skewedWeights, mkArea, mkSubarea,
      List.mergeSort, objSet, List.lookup, List.enum, List.enumFrom]
    norm_num

/-- Claim C3 as amended: in the client mirror each subtopic's delta equals
`(topic weight fraction) * (subtopic share fraction) * learning_rate`,
which is exactly the weight pushed to the backend for that subtopic times
its learning rate — with the fractions taken from the raw custom
percentages divided by 100 (or the server/uniform defaults) and no
renormalization across subtopics, so the products match the spec's
normalized priorities only when the supplied weights already sum to 1, as
in the spec's worked example (weights 0.7 and 0.3, learning rates 0.2 and
0.9), where the deltas are 0.14 and 0.27 and subtopic B wins. -/
theorem buildAreas_delta_formula :
    (∀ (items : List StatsItem) (w : CustomWeights) (a : Area) (s : Subarea),
        a ∈ buildAreas items w → s ∈ a.subareas →
        s.delta = a.weight * s.weightShare * s.learningRate) ∧
    (buildAreas exampleItems exampleWeights).map
        (fun a => a.subareas.map (fun s => s.delta)) = [[7/50], [27/100]] ∧
    pushWeightsToBackend (buildAreas exampleItems exampleWeights)
      = [("Topic A: sub", 7/10), ("Topic B: sub", 3/10)] ∧
    (7 : ℚ)/50 < 27/100 := by
  refine ⟨?_, ?_, ?_, by norm_num⟩
  · intro items w a s ha hs
    simp only [buildAreas, List.mem_map] at ha
    obtain ⟨e, hmem, rfl⟩ := ha
    simp only [mkArea, List.mem_map] at hs
    obtain ⟨st, hst, rfl⟩ := hs
    rfl
  · simp [buildAreas, groupByTopic, insertGrouped, topicNameOf, labelOf,
      exampleItems, exampleWeights, mkArea, mkSubarea, List.mergeSort, List.lookup, List.enum, List.enumFrom]
    norm_num
  · simp [pushWeightsToBackend, buildAreas, groupByTopic, insertGrouped,
      topicNameOf, labelOf, exampleItems, exampleWeights, mkArea, mkSubarea,
      List.mergeSort, objSet, List.lookup, List.enum, List.enumFrom]

/-- Witness for the amended C3: the delta formula applied to the worked
example's first area and subarea. -/
theorem buildAreas_delta_formula_witness :
    exampleArea ∈ buildAreas exampleItems exampleWeights ∧
    exampleSubarea ∈ exampleArea.subareas ∧
    exampleSubarea.delta
      = exampleArea.weight * exampleSubarea.weightShare * exampleSubarea.learningRate := by
  have hmem1 : exampleArea ∈ buildAreas exampleItems exampleWeights := by
    simp [exampleArea, buildAreas, groupByTopic, insertGrouped, topicNameOf,
      labelOf, exampleItems, List.enum, List.enumFrom]
  have hmem2 : exampleSubarea ∈ exampleArea.subareas := by
    simp [exampleSubarea, exampleArea, buildAreas, groupByTopic, insertGrouped,
      topicNameOf, labelOf, exampleItems, exampleWeights, mkArea,
      List.mergeSort, List.lookup, List.enum, List.enumFrom]
  exact ⟨hmem1, hmem2,
    buildAreas_delta_formula.1 exampleItems exampleWeights exampleArea
      exampleSubarea hmem1 hmem2⟩

end DeltaDrills
